import Mathlib

/-!
# Verification of the Spanner Django `DatabaseOperations` dialect adapter

A shallow embedding of `spanner/django/operations.py`: the SQL-dialect and
type-coercion adaptation layer (identifier quoting, mass-delete statement
shaping, outbound value adaptation, inbound value conversion, date/time
extraction and truncation fragments, lookup casting, regex-operand escaping).

Modelling conventions:
* Python strings are Lean `String`/`List Char`; Python bytes are `List Nat`
  with every element `< 256`.
* The ambient Django configuration (`settings.USE_TZ` and
  `self.connection.timezone`) is threaded explicitly as a `DjangoConfig`
  record; the connection timezone is modelled as a fixed UTC offset in
  minutes.
* Python `None` is `Option.none`; a raised exception is `Except.error` with
  the exception message.
* `DateStr`/`TimestampStr` from `spanner.dbapi.parse_utils` are plain `str`
  subclasses used only as type tags; they are modelled as plain `String`.
* `escape_name` (also from `parse_utils`, outside the embedded module) and
  the Django `style` object are held abstract: `sql_flush` takes them as
  function parameters, so every theorem about it holds for an arbitrary
  quoting function and styling object.
-/

/-- The ambient Django settings visible to the adapter: the global
timezone-awareness flag `USE_TZ` and the connection timezone, modelled as a
fixed UTC offset in minutes. -/
structure DjangoConfig where
  useTZ : Bool
  connTZMin : Int
  deriving Repr, DecidableEq

/-- A Django output `style` object: the two styling hooks `sql_flush`
invokes. A plain (non-colourising) style maps both to the identity. -/
structure SQLStyle where
  SQL_KEYWORD : String → String
  SQL_FIELD : String → String

/-- The plain style: no colourisation, both hooks are the identity. -/
def plainStyle : SQLStyle := ⟨fun s => s, fun s => s⟩

/-- Python `template % arg` for a template with a single `%s` placeholder:
the placeholder is replaced by the argument, everything else is copied. -/
def formatOne : List Char → List Char → List Char
  | [], _ => []
  | '%' :: 's' :: rest, arg => arg ++ rest
  | c :: rest, arg => c :: formatOne rest arg

/-- `formatOne` lifted to `String`. -/
def pformat (template arg : String) : String :=
  ⟨formatOne template.data arg.data⟩

/-- `DatabaseOperations.sql_flush`. Cloud Spanner has no TRUNCATE, so one
DELETE statement is produced per table. The two-stage Python `%`-formatting
(`'%s %s %%s' % (KW('DELETE'), KW('FROM'))`, then `% SQL_FIELD(quote(table))`)
is rendered by building `KW('DELETE') ++ " " ++ KW('FROM') ++ " %s"` and then
substituting the `"%s"` placeholder with `pformat`. `quote` stands for
`self.quote_name`, i.e. `escape_name` from `parse_utils` (not part of the
embedded module), held abstract. -/
def sql_flush (style : SQLStyle) (quote : String → String)
    (tables : List String) : List String :=
  match tables with
  | [] => []
  | _ =>
    let delete_sql :=
      style.SQL_KEYWORD "DELETE" ++ " " ++ style.SQL_KEYWORD "FROM" ++ " %s"
    tables.map fun table =>
      pformat delete_sql (style.SQL_FIELD (quote table))

/-- The `extract_names` class attribute: Django lookup names that need a
different name in Spanner's `EXTRACT()`. -/
def extract_names : List (String × String) :=
  [("week_day", "dayofweek"), ("iso_week", "isoweek"), ("iso_year", "isoyear")]

/-- Python `self.extract_names.get(lookup_type, lookup_type)`. -/
def extractNamesGet (lookup_type : String) : String :=
  match extract_names.lookup lookup_type with
  | some v => v
  | none => lookup_type

/-- `DatabaseOperations.date_extract_sql`: the lookup name is translated
through `extract_names` and interpolated into an `EXTRACT` fragment. -/
def date_extract_sql (lookup_type field_name : String) : String :=
  "EXTRACT(" ++ extractNamesGet lookup_type ++ " FROM " ++ field_name ++ ")"

/-- `DatabaseOperations.datetime_extract_sql`: like `date_extract_sql` but
with an `AT TIME ZONE` clause; the zone is the caller's `tzname` when
`USE_TZ` is set, else `"UTC"`. -/
def datetime_extract_sql (cfg : DjangoConfig)
    (lookup_type field_name tzname : String) : String :=
  let tzname := if cfg.useTZ then tzname else "UTC"
  "EXTRACT(" ++ extractNamesGet lookup_type ++ " FROM " ++ field_name ++
    " AT TIME ZONE \"" ++ tzname ++ "\")"

/-- `DatabaseOperations.time_extract_sql`: time is stored as a TIMESTAMP in
UTC, so the zone is the literal `"UTC"`. The method reads neither
`extract_names` nor the ambient settings; `cfg` is threaded for uniformity
with the other extraction hooks and is unused. -/
def time_extract_sql (_cfg : DjangoConfig)
    (lookup_type field_name : String) : String :=
  "EXTRACT(" ++ lookup_type ++ " FROM " ++ field_name ++
    " AT TIME ZONE \"UTC\")"

/-- `DatabaseOperations.date_trunc_sql`: Spanner's week truncation anchors on
Sunday but Django expects Monday, so for `week` the field is shifted back one
day before truncation and the result shifted forward one day. -/
def date_trunc_sql (lookup_type field_name : String) : String :=
  let field_name :=
    if lookup_type = "week" then
      "DATE_SUB(" ++ field_name ++ ", INTERVAL 1 DAY)"
    else field_name
  let sql := "DATE_TRUNC(" ++ field_name ++ ", " ++ lookup_type ++ ")"
  if lookup_type = "week" then
    "DATE_ADD(" ++ sql ++ ", INTERVAL 1 DAY)"
  else sql

/-- `DatabaseOperations.datetime_trunc_sql`: the TIMESTAMP analogue of
`date_trunc_sql`, with the zone from the caller when `USE_TZ` is set, else
`"UTC"`. -/
def datetime_trunc_sql (cfg : DjangoConfig)
    (lookup_type field_name tzname : String) : String :=
  let tzname := if cfg.useTZ then tzname else "UTC"
  let field_name :=
    if lookup_type = "week" then
      "TIMESTAMP_SUB(" ++ field_name ++ ", INTERVAL 1 DAY)"
    else field_name
  let sql := "TIMESTAMP_TRUNC(" ++ field_name ++ ", " ++ lookup_type ++
    ", \"" ++ tzname ++ "\")"
  if lookup_type = "week" then
    "TIMESTAMP_ADD(" ++ sql ++ ", INTERVAL 1 DAY)"
  else sql

/-- The tuple of lookup names cast to STRING by `lookup_cast`. -/
def textLookups : List String :=
  ["contains", "icontains", "startswith", "istartswith",
   "endswith", "iendswith", "regex", "iregex"]

/-- `DatabaseOperations.lookup_cast`: text lookups are cast to STRING so that
non-string columns can participate; everything else is the identity
placeholder. -/
def lookup_cast (lookup_type : String) : String :=
  if lookup_type ∈ textLookups then "CAST(%s AS STRING)" else "%s"

/-- The character set Python 3's `re.escape` escapes with a backslash
(`_special_chars_map`): `()[]\x7b\x7d?*+-|^$\\.&~# \t\n\r\v\f`. -/
def reSpecialChars : List Char :=
  ['(', ')', '[', ']', Char.ofNat 123, Char.ofNat 125, '?', '*', '+', '-',
   '|', '^', '$', '\\', '.', '&', '~', '#', ' ', '\t', '\n', '\r',
   Char.ofNat 11, Char.ofNat 12]

/-- Python `re.escape`: prefix every special character with a backslash,
leave every other character unchanged. -/
def reEscape (s : String) : String :=
  ⟨s.data.flatMap fun c => if c ∈ reSpecialChars then ['\\', c] else [c]⟩

/-- `DatabaseOperations.prep_for_like_query`: lookups that use this method
use `REGEXP_CONTAINS` instead of LIKE, so the operand is regex-escaped. The
Python `str(x)` rendering is the identity on the `String` domain modelled
here. -/
def prep_for_like_query (x : String) : String := reEscape x

/-- `DatabaseOperations.prep_for_iexact_query`: the source aliases it to
`prep_for_like_query` (`prep_for_iexact_query = prep_for_like_query`). -/
def prep_for_iexact_query : String → String := prep_for_like_query

/-! ## Python date/time values

`datetime.date`, `datetime.time` and `datetime.datetime` are modelled as
records of their components; a `tzinfo` is modelled as a fixed UTC offset in
minutes (`none` for a naive value). Calendar arithmetic uses the standard
civil-from-days / days-from-civil conversion on the proleptic Gregorian
calendar, the calendar `datetime` implements. -/

/-- Zero-padded decimal rendering, Python `'%0*d'`. -/
def padNum (width n : Nat) : String :=
  let s := toString n
  ⟨List.replicate (width - s.length) '0' ++ s.data⟩

/-- A `datetime.date`. -/
structure PyDate where
  year : Nat
  month : Nat
  day : Nat
  deriving Repr, DecidableEq

/-- A `datetime.time` (always naive in the adapter's inputs). -/
structure PyTime where
  hour : Nat
  minute : Nat
  second : Nat
  microsecond : Nat
  deriving Repr, DecidableEq

/-- A `datetime.datetime`; `tzOffsetMin` is the `utcoffset()` of its
`tzinfo` in minutes, `none` when the value is naive. -/
structure PyDatetime where
  year : Nat
  month : Nat
  day : Nat
  hour : Nat
  minute : Nat
  second : Nat
  microsecond : Nat
  tzOffsetMin : Option Int
  deriving Repr, DecidableEq

/-- Django `timezone.is_aware`: a datetime is aware when `utcoffset()` is
not `None`. -/
def isAware (v : PyDatetime) : Bool := v.tzOffsetMin.isSome

/-- Days since 1970-01-01 of a civil date (proleptic Gregorian). Divisions
truncate toward zero (`Int.tdiv`), matching the sign guards. -/
def daysFromCivil (y m d : Int) : Int :=
  let y2 := if m ≤ 2 then y - 1 else y
  let era := Int.tdiv (if 0 ≤ y2 then y2 else y2 - 399) 400
  let yoe := y2 - era * 400
  let mp := Int.emod (m + 9) 12
  let doy := Int.tdiv (153 * mp + 2) 5 + d - 1
  let doe := yoe * 365 + Int.tdiv yoe 4 - Int.tdiv yoe 100 + doy
  era * 146097 + doe - 719468

/-- Civil date (year, month, day) of a count of days since 1970-01-01. -/
def civilFromDays (z0 : Int) : Int × Int × Int :=
  let z := z0 + 719468
  let era := Int.tdiv (if 0 ≤ z then z else z - 146096) 146097
  let doe := z - era * 146097
  let yoe := Int.tdiv (doe - Int.tdiv doe 1460 + Int.tdiv doe 36524 -
    Int.tdiv doe 146096) 365
  let y := yoe + era * 400
  let doy := doe - (365 * yoe + Int.tdiv yoe 4 - Int.tdiv yoe 100)
  let mp := Int.tdiv (5 * doy + 2) 153
  let d := doy - Int.tdiv (153 * mp + 2) 5 + 1
  let m := if mp < 10 then mp + 3 else mp - 9
  (if m ≤ 2 then y + 1 else y, m, d)

/-- Microseconds since the epoch of the wall-clock components (the offset is
not applied; it is the *naive* reading). -/
def toEpochMicros (v : PyDatetime) : Int :=
  (daysFromCivil v.year v.month v.day * 86400 +
    (v.hour : Int) * 3600 + (v.minute : Int) * 60 + (v.second : Int)) *
    1000000 + (v.microsecond : Int)

/-- The naive datetime of a count of microseconds since the epoch. -/
def ofEpochMicros (t : Int) : PyDatetime :=
  let us := Int.emod t 1000000
  let secs := Int.tdiv (t - us) 1000000
  let sod := Int.emod secs 86400
  let days := Int.tdiv (secs - sod) 86400
  let c := civilFromDays days
  { year := c.1.toNat, month := c.2.1.toNat, day := c.2.2.toNat,
    hour := (Int.tdiv sod 3600).toNat,
    minute := (Int.emod (Int.tdiv sod 60) 60).toNat,
    second := (Int.emod sod 60).toNat,
    microsecond := us.toNat, tzOffsetMin := none }

/-- Django `timezone.make_naive(value, tz)` for a fixed-offset `tz`:
`value.astimezone(tz).replace(tzinfo=None)`, i.e. shift the wall clock by
the difference of the two offsets and drop the `tzinfo`. The adapter only
calls it on aware values; on a naive value (where Django raises) the own
offset defaults to 0 here. -/
def makeNaive (v : PyDatetime) (targetOffMin : Int) : PyDatetime :=
  let own := v.tzOffsetMin.getD 0
  ofEpochMicros (toEpochMicros v + (targetOffMin - own) * 60000000)

/-- `value.isoformat(timespec='microseconds')` of a naive datetime:
`YYYY-MM-DDTHH:MM:SS.ffffff`, no offset suffix. -/
def isoMicro (v : PyDatetime) : String :=
  padNum 4 v.year ++ "-" ++ padNum 2 v.month ++ "-" ++ padNum 2 v.day ++
    "T" ++ padNum 2 v.hour ++ ":" ++ padNum 2 v.minute ++ ":" ++
    padNum 2 v.second ++ "." ++ padNum 6 v.microsecond

/-- `value.isoformat(timespec='microseconds')` of a `datetime.time`. -/
def timeIsoMicro (t : PyTime) : String :=
  padNum 2 t.hour ++ ":" ++ padNum 2 t.minute ++ ":" ++ padNum 2 t.second ++
    "." ++ padNum 6 t.microsecond

/-- `str(value)` of a `datetime.date`: `YYYY-MM-DD`. -/
def dateStr (d : PyDate) : String :=
  padNum 4 d.year ++ "-" ++ padNum 2 d.month ++ "-" ++ padNum 2 d.day

/-! ## Base64

Cloud Spanner returns BYTES columns as base64 text; the adapter decodes them
with `base64.b64decode`. The standard alphabet and the sextet packing of
RFC 4648 are embedded; only input over the standard alphabet with correct
trailing `=` padding is modelled (CPython's discarding of other characters
before decoding is out of scope of the embedded behaviour). -/

/-- The standard base64 alphabet, in sextet order. -/
def b64alphabet : List Char :=
  ['A', 'B', 'C', 'D', 'E', 'F', 'G', 'H', 'I', 'J', 'K', 'L', 'M',
   'N', 'O', 'P', 'Q', 'R', 'S', 'T', 'U', 'V', 'W', 'X', 'Y', 'Z',
   'a', 'b', 'c', 'd', 'e', 'f', 'g', 'h', 'i', 'j', 'k', 'l', 'm',
   'n', 'o', 'p', 'q', 'r', 's', 't', 'u', 'v', 'w', 'x', 'y', 'z',
   '0', '1', '2', '3', '4', '5', '6', '7', '8', '9', '+', '/']

/-- The alphabet character of a sextet. -/
def encChar (s : Nat) : Char := b64alphabet.getD s 'A'

/-- The sextet of an alphabet character, `none` for a character outside the
alphabet (including the pad `'='`). -/
def decChar (c : Char) : Option Nat := b64alphabet.indexOf? c

/-- `base64.b64encode` on a byte sequence (bytes as `Nat < 256`): pack each
group of three bytes into four sextets; a trailing group of one or two bytes
is padded with `'='`. -/
def b64encode : List Nat → List Char
  | [] => []
  | [a] => [encChar (a / 4), encChar (a % 4 * 16), '=', '=']
  | [a, b] => [encChar (a / 4), encChar (a % 4 * 16 + b / 16),
      encChar (b % 16 * 4), '=']
  | a :: b :: c :: rest =>
      encChar (a / 4) :: encChar (a % 4 * 16 + b / 16) ::
      encChar (b % 16 * 4 + c / 64) :: encChar (c % 64) :: b64encode rest

/-- The quad-wise core of `base64.b64decode`: four characters yield three
bytes; a final `xy==` quad yields one byte and a final `xyz=` quad two;
anything else is invalid. -/
def b64decodeCore : List Char → Option (List Nat)
  | [] => some []
  | c1 :: c2 :: c3 :: c4 :: rest =>
    match decChar c1, decChar c2 with
    | some s1, some s2 =>
      if c3 = '=' then
        if c4 = '=' ∧ rest = [] then some [s1 * 4 + s2 / 16] else none
      else
        match decChar c3 with
        | some s3 =>
          if c4 = '=' then
            if rest = [] then some [s1 * 4 + s2 / 16, s2 % 16 * 16 + s3 / 4]
            else none
          else
            match decChar c4, b64decodeCore rest with
            | some s4, some bs =>
                some ((s1 * 4 + s2 / 16) :: (s2 % 16 * 16 + s3 / 4) ::
                  (s3 % 4 * 64 + s4) :: bs)
            | _, _ => none
        | none => none
    | _, _ => none
  | _ => none

/-- `base64.b64decode`: a failed decode raises `binascii.Error`. -/
def b64decode (v : List Char) : Except String (List Nat) :=
  match b64decodeCore v with
  | some bs => Except.ok bs
  | none => Except.error "binascii.Error: Invalid base64-encoded string"

/-! ## Outbound value adaptation (encode) -/

/-- `DatabaseOperations.adapt_datefield_value`: `None` passes through,
otherwise `DateStr(str(value))`. -/
def adapt_datefield_value : Option PyDate → Option String
  | none => none
  | some value => some (dateStr value)

/-- The argument of `adapt_datetimefield_value`: either a deferred query
expression (anything with a `resolve_expression` attribute) or a literal
`datetime`. -/
inductive DatetimeArg where
  | expression
  | literal (value : PyDatetime)
  deriving Repr, DecidableEq

/-- The result of `adapt_datetimefield_value`: the expression passed through
unchanged, or a `TimestampStr` wire string. -/
inductive DatetimeAdapted where
  | expression
  | timestampStr (s : String)
  deriving Repr, DecidableEq

/-- The `ValueError` message raised by `adapt_datetimefield_value`. -/
def useTzErrMsg : String :=
  "The Cloud Spanner backend does not support " ++
    "timezone-aware datetimes when USE_TZ is False."

/-- `DatabaseOperations.adapt_datetimefield_value`: `None` passes through;
expressions pass through; an aware datetime is made naive in the connection
timezone when `USE_TZ` is set and raises `ValueError` otherwise; the
(naive) value is rendered `isoformat(timespec='microseconds') + 'Z'` as a
`TimestampStr`. -/
def adapt_datetimefield_value (cfg : DjangoConfig) :
    Option DatetimeArg → Except String (Option DatetimeAdapted)
  | none => Except.ok none
  | some DatetimeArg.expression => Except.ok (some DatetimeAdapted.expression)
  | some (DatetimeArg.literal value) =>
    if isAware value then
      if cfg.useTZ then
        Except.ok (some (DatetimeAdapted.timestampStr
          (isoMicro (makeNaive value cfg.connTZMin) ++ "Z")))
      else
        Except.error useTzErrMsg
    else
      Except.ok (some (DatetimeAdapted.timestampStr (isoMicro value ++ "Z")))

/-- `DatabaseOperations.adapt_decimalfield_value`: `None` passes through,
otherwise `float(value)`. The decimal type and the IEEE 754 conversion are
held abstract as `pyFloat` (`max_digits`/`decimal_places` are unused in the
source). -/
def adapt_decimalfield_value {Dec Flt : Type} (pyFloat : Dec → Flt) :
    Option Dec → Option Flt
  | none => none
  | some value => some (pyFloat value)

/-- `DatabaseOperations.adapt_timefield_value`: `None` passes through,
otherwise the dummy date `0001-01-01` is prefixed and the value rendered as
a `TimestampStr` with trailing `Z`. -/
def adapt_timefield_value : Option PyTime → Option String
  | none => none
  | some value => some ("0001-01-01T" ++ timeIsoMicro value ++ "Z")

/-! ## Inbound value conversion (decode) -/

/-- A `google.api_core.datetime_helpers.DatetimeWithNanoseconds` result
value: the components the converters read, plus the sub-microsecond digits
the class carries and the converters ignore. -/
structure DatetimeWithNanos where
  year : Nat
  month : Nat
  day : Nat
  hour : Nat
  minute : Nat
  second : Nat
  microsecond : Nat
  extraNanos : Nat
  deriving Repr, DecidableEq

/-- `DatabaseOperations.convert_binaryfield_value`: `None` passes through,
otherwise the base64 payload is decoded to bytes. -/
def convert_binaryfield_value :
    Option (List Char) → Option (Except String (List Nat))
  | none => none
  | some value => some (b64decode value)

/-- `DatabaseOperations.convert_datetimefield_value`: `None` passes through,
otherwise a `datetime` is rebuilt from the microsecond-precision components
(nanoseconds dropped) with the connection timezone attached in place of the
UTC tag. -/
def convert_datetimefield_value (cfg : DjangoConfig) :
    Option DatetimeWithNanos → Option PyDatetime
  | none => none
  | some value => some
      { year := value.year, month := value.month, day := value.day,
        hour := value.hour, minute := value.minute, second := value.second,
        microsecond := value.microsecond,
        tzOffsetMin := some cfg.connTZMin }

/-- `DatabaseOperations.convert_decimalfield_value`: `None` passes through,
otherwise `Decimal(str(value))`: the float is rendered to its canonical
string (`reprFloat`) and that string parsed as a decimal (`decimalOfStr`);
both are held abstract (IEEE 754 is not modelled). -/
def convert_decimalfield_value {Flt Dec : Type}
    (reprFloat : Flt → String) (decimalOfStr : String → Dec) :
    Option Flt → Option Dec
  | none => none
  | some value => some (decimalOfStr (reprFloat value))

/-- `DatabaseOperations.convert_timefield_value`: `None` passes through,
otherwise the time-of-day components are kept and the date discarded. -/
def convert_timefield_value : Option DatetimeWithNanos → Option PyTime
  | none => none
  | some value => some
      { hour := value.hour, minute := value.minute,
        second := value.second, microsecond := value.microsecond }

/-- `DatabaseOperations.convert_uuidfield_value`: `None` passes through,
otherwise `UUID(value)`; the UUID constructor (which raises on malformed
text) is held abstract as `parseUUID`. -/
def convert_uuidfield_value {U : Type} (parseUUID : String → Except String U) :
    Option String → Option (Except String U)
  | none => none
  | some value => some (parseUUID value)

/-! ## Helper lemmas and predicates -/

/-- Substring test over character lists. -/
def hasSubstr (needle hay : List Char) : Bool :=
  (List.range (hay.length + 1)).any fun i => needle.isPrefixOf (hay.drop i)

/-- Decoding an alphabet character recovers its sextet. -/
theorem decChar_encChar (s : Nat) (h : s < 64) : decChar (encChar s) = some s := by
  revert s; decide

/-- No sextet encodes to the pad character. -/
theorem encChar_ne_pad (s : Nat) : encChar s ≠ '=' := by
  rcases Nat.lt_or_ge s 64 with h | h
  · have key : ∀ t < 64, encChar t ≠ '=' := by decide
    exact key s h
  · unfold encChar
    rw [List.getD_eq_default]
    · decide
    · simpa [b64alphabet] using h

/-- Quad-wise base64 decoding inverts `b64encode` on byte sequences. -/
theorem b64decode_encode : ∀ (b : List Nat), (∀ x ∈ b, x < 256) →
    b64decodeCore (b64encode b) = some b
  | [], _ => rfl
  | [a], h => by
    have ha : a < 256 := h a (by simp)
    have h1 := decChar_encChar (a / 4) (by omega)
    have h2 := decChar_encChar (a % 4 * 16) (by omega)
    simp [b64encode, b64decodeCore, h1, h2]
    omega
  | [a, b], h => by
    have ha : a < 256 := h a (by simp)
    have hb : b < 256 := h b (by simp)
    have h1 := decChar_encChar (a / 4) (by omega)
    have h2 := decChar_encChar (a % 4 * 16 + b / 16) (by omega)
    have h3 := decChar_encChar (b % 16 * 4) (by omega)
    simp [b64encode, b64decodeCore, h1, h2, h3, encChar_ne_pad]
    omega
  | a :: b :: c :: rest, h => by
    have ha : a < 256 := h a (by simp)
    have hb : b < 256 := h b (by simp)
    have hc : c < 256 := h c (by simp)
    have ih := b64decode_encode rest (fun x hx => h x (by simp [hx]))
    have h1 := decChar_encChar (a / 4) (by omega)
    have h2 := decChar_encChar (a % 4 * 16 + b / 16) (by omega)
    have h3 := decChar_encChar (b % 16 * 4 + c / 64) (by omega)
    have h4 := decChar_encChar (c % 64) (by omega)
    simp [b64encode, b64decodeCore, h1, h2, h3, h4, encChar_ne_pad, ih]
    omega

/-! ## Claim theorems -/

/-- C1: `sql_flush` does return one DELETE statement per table in input order
and the empty list for an empty input, but — contradicting its own comment
"A dummy WHERE clause is required" — the statements it builds contain no
WHERE clause at all: with the plain style and identity quoting, flushing
`['a', 'b']` yields exactly `DELETE FROM a` and `DELETE FROM b`, neither of
which contains the token `WHERE`. -/
theorem sql_flush_lacks_where_clause :
    sql_flush plainStyle (fun s => s) ["a", "b"] =
      ["DELETE FROM a", "DELETE FROM b"] ∧
    (sql_flush plainStyle (fun s => s) ["a", "b"]).all
      (fun s => !hasSubstr "WHERE".data s.data) = true ∧
    sql_flush plainStyle (fun s => s) [] = [] := by
  refine ⟨rfl, by decide, rfl⟩

/-- C2 counterexample: `time_extract_sql` does not translate the unit
through the synonym table: at unit `week_day` it emits `week_day`
unchanged and not `dayofweek`, so the claim as stated is false at the
concrete input `('week_day', 'col')`. -/
theorem time_extract_sql_ignores_synonyms :
    time_extract_sql ⟨true, 0⟩ "week_day" "col" =
      "EXTRACT(week_day FROM col AT TIME ZONE \"UTC\")" ∧
    time_extract_sql ⟨true, 0⟩ "week_day" "col" ≠
      "EXTRACT(dayofweek FROM col AT TIME ZONE \"UTC\")" ∧
    time_extract_sql ⟨false, 0⟩ "week_day" "col" =
      time_extract_sql ⟨true, 0⟩ "week_day" "col" := by
  refine ⟨rfl, by decide, rfl⟩

/-- C2 (amended): for every unit name `u` and field reference `f`,
`time_extract_sql` renders `EXTRACT(u FROM f AT TIME ZONE "UTC")` with the
unit name unchanged (the synonym table is not consulted) and the timezone
forced to `"UTC"` regardless of the global timezone-awareness setting. -/
theorem time_extract_sql_utc_passthrough (cfg : DjangoConfig) (u f : String) :
    time_extract_sql cfg u f =
      "EXTRACT(" ++ u ++ " FROM " ++ f ++ " AT TIME ZONE \"UTC\")" := by
  apply String.ext
  simp [time_extract_sql, String.data_append]

/-- C3: encoding a timezone-aware (non-expression) datetime raises
`ValueError` if and only if `USE_TZ` is disabled; when enabled, it succeeds
and returns the value made naive in the connection timezone, rendered as
ISO-8601 with microsecond precision and a trailing `Z`. -/
theorem adapt_datetimefield_value_aware_spec (cfg : DjangoConfig)
    (v : PyDatetime) (h : isAware v = true) :
    (adapt_datetimefield_value cfg (some (DatetimeArg.literal v)) =
        Except.error useTzErrMsg ↔ cfg.useTZ = false) ∧
    (cfg.useTZ = true →
      adapt_datetimefield_value cfg (some (DatetimeArg.literal v)) =
        Except.ok (some (DatetimeAdapted.timestampStr
          (isoMicro (makeNaive v cfg.connTZMin) ++ "Z")))) := by
  cases hu : cfg.useTZ <;> simp [adapt_datetimefield_value, h, hu]

/-- C3 witness: the aware value 2020-01-01T00:30:00.000012+01:00 raises
under `USE_TZ = False` and encodes to `2019-12-31T18:30:00.000012Z` under
`USE_TZ = True` with a connection timezone of -300 minutes (UTC-5). -/
theorem adapt_datetimefield_value_aware_witness :
    adapt_datetimefield_value ⟨false, 0⟩
      (some (DatetimeArg.literal ⟨2020, 1, 1, 0, 30, 0, 12, some 60⟩)) =
      Except.error useTzErrMsg ∧
    adapt_datetimefield_value ⟨true, -300⟩
      (some (DatetimeArg.literal ⟨2020, 1, 1, 0, 30, 0, 12, some 60⟩)) =
      Except.ok (some (DatetimeAdapted.timestampStr
        "2019-12-31T18:30:00.000012Z")) := by
  constructor
  · exact (adapt_datetimefield_value_aware_spec ⟨false, 0⟩
      ⟨2020, 1, 1, 0, 30, 0, 12, some 60⟩ rfl).1.mpr rfl
  · have h := (adapt_datetimefield_value_aware_spec ⟨true, -300⟩
      ⟨2020, 1, 1, 0, 30, 0, 12, some 60⟩ rfl).2 rfl
    rw [h]
    rfl

/-- C4: week truncation wraps the field in a one-day subtraction before the
truncation call and a one-day addition after it, for both the DATE and the
TIMESTAMP variants; every other unit truncates the field directly with no
shift (the TIMESTAMP variant carries the zone, caller-supplied under
`USE_TZ` and `"UTC"` otherwise). -/
theorem trunc_sql_week_shift_spec :
    (∀ f, date_trunc_sql "week" f =
      "DATE_ADD(DATE_TRUNC(DATE_SUB(" ++ f ++
        ", INTERVAL 1 DAY), week), INTERVAL 1 DAY)") ∧
    (∀ u f, u ≠ "week" → date_trunc_sql u f =
      "DATE_TRUNC(" ++ f ++ ", " ++ u ++ ")") ∧
    (∀ (cfg : DjangoConfig) f tz, datetime_trunc_sql cfg "week" f tz =
      "TIMESTAMP_ADD(TIMESTAMP_TRUNC(TIMESTAMP_SUB(" ++ f ++
        ", INTERVAL 1 DAY), week, \"" ++
        (if cfg.useTZ then tz else "UTC") ++ "\"), INTERVAL 1 DAY)") ∧
    (∀ (cfg : DjangoConfig) u f tz, u ≠ "week" →
      datetime_trunc_sql cfg u f tz =
      "TIMESTAMP_TRUNC(" ++ f ++ ", " ++ u ++ ", \"" ++
        (if cfg.useTZ then tz else "UTC") ++ "\")") := by
  refine ⟨fun f => ?_, fun u f h => ?_, fun cfg f tz => ?_, fun cfg u f tz h => ?_⟩
  · apply String.ext
    simp [date_trunc_sql, String.data_append]
  · simp [date_trunc_sql, h]
  · apply String.ext
    simp [datetime_trunc_sql, String.data_append]
  · apply String.ext
    simp [datetime_trunc_sql, h, String.data_append]

/-- C4 witness: the week and month truncations of `col`, evaluated. -/
theorem trunc_sql_week_shift_witness :
    date_trunc_sql "week" "col" =
      "DATE_ADD(DATE_TRUNC(DATE_SUB(col, INTERVAL 1 DAY), week), INTERVAL 1 DAY)" ∧
    date_trunc_sql "month" "col" = "DATE_TRUNC(col, month)" ∧
    datetime_trunc_sql ⟨true, 0⟩ "week" "col" "America/Chicago" =
      "TIMESTAMP_ADD(TIMESTAMP_TRUNC(TIMESTAMP_SUB(col, INTERVAL 1 DAY), week, \"America/Chicago\"), INTERVAL 1 DAY)" ∧
    datetime_trunc_sql ⟨true, 0⟩ "month" "col" "America/Chicago" =
      "TIMESTAMP_TRUNC(col, month, \"America/Chicago\")" := by
  refine ⟨?_, ?_, ?_, ?_⟩
  · rw [trunc_sql_week_shift_spec.1 "col"]; rfl
  · rw [trunc_sql_week_shift_spec.2.1 "month" "col" (by decide)]; rfl
  · rw [trunc_sql_week_shift_spec.2.2.1 ⟨true, 0⟩ "col" "America/Chicago"]; rfl
  · rw [trunc_sql_week_shift_spec.2.2.2 ⟨true, 0⟩ "month" "col"
      "America/Chicago" (by decide)]; rfl

/-- C5: every outbound adapter maps `None` to `None` (the datetime adapter
returns it without raising), and every inbound converter (datetime, decimal,
time, binary, UUID) maps `None` to `None` without invoking the kind-specific
rule — for arbitrary instantiations of the abstract float/decimal/UUID
conversions. -/
theorem null_values_pass_through :
    adapt_datefield_value none = none ∧
    (∀ cfg : DjangoConfig, adapt_datetimefield_value cfg none = Except.ok none) ∧
    (∀ (Dec Flt : Type) (pyFloat : Dec → Flt),
      adapt_decimalfield_value pyFloat none = none) ∧
    adapt_timefield_value none = none ∧
    (∀ cfg : DjangoConfig, convert_datetimefield_value cfg none = none) ∧
    (∀ (Flt Dec : Type) (reprFloat : Flt → String)
      (decimalOfStr : String → Dec),
      convert_decimalfield_value reprFloat decimalOfStr none = none) ∧
    convert_timefield_value none = none ∧
    convert_binaryfield_value none = none ∧
    (∀ (U : Type) (parseUUID : String → Except String U),
      convert_uuidfield_value parseUUID none = none) := by
  exact ⟨rfl, fun _ => rfl, fun _ _ _ => rfl, rfl, fun _ => rfl,
    fun _ _ _ _ => rfl, rfl, rfl, fun _ _ => rfl⟩

/-- C6: `date_extract_sql` maps `week_day` to `dayofweek` through the
synonym table, and passes any unit outside the table (anything other than
`week_day`, `iso_week`, `iso_year`) through unchanged. -/
theorem date_extract_sql_synonym_spec :
    (∀ col, date_extract_sql "week_day" col =
      "EXTRACT(dayofweek FROM " ++ col ++ ")") ∧
    (∀ u col, u ≠ "week_day" → u ≠ "iso_week" → u ≠ "iso_year" →
      date_extract_sql u col = "EXTRACT(" ++ u ++ " FROM " ++ col ++ ")") := by
  constructor
  · intro col
    apply String.ext
    simp [date_extract_sql, extractNamesGet, extract_names, String.data_append]
  · intro u col h1 h2 h3
    have b1 : (u == "week_day") = false := beq_eq_false_iff_ne.mpr h1
    have b2 : (u == "iso_week") = false := beq_eq_false_iff_ne.mpr h2
    have b3 : (u == "iso_year") = false := beq_eq_false_iff_ne.mpr h3
    apply String.ext
    simp [date_extract_sql, extractNamesGet, extract_names, List.lookup,
      b1, b2, b3, String.data_append]

/-- C6 witness: the mapped unit `week_day` and the unmapped unit `day`,
evaluated at the field reference `col`. -/
theorem date_extract_sql_synonym_witness :
    date_extract_sql "week_day" "col" = "EXTRACT(dayofweek FROM col)" ∧
    date_extract_sql "day" "col" = "EXTRACT(day FROM col)" := by
  constructor
  · rw [date_extract_sql_synonym_spec.1 "col"]; rfl
  · rw [date_extract_sql_synonym_spec.2 "day" "col"
      (by decide) (by decide) (by decide)]; rfl

/-- C7: `lookup_cast` returns the cast-to-string wrapper for exactly the
eight text lookup kinds and the identity placeholder for every other lookup
kind. -/
theorem lookup_cast_spec :
    (∀ u, u ∈ textLookups → lookup_cast u = "CAST(%s AS STRING)") ∧
    (∀ u, u ∉ textLookups → lookup_cast u = "%s") := by
  constructor
  · intro u h
    simp [lookup_cast, h]
  · intro u h
    simp [lookup_cast, h]

/-- C7 witness: `contains` is cast, `exact` is the identity placeholder. -/
theorem lookup_cast_witness :
    lookup_cast "contains" = "CAST(%s AS STRING)" ∧
    lookup_cast "exact" = "%s" := by
  constructor
  · exact lookup_cast_spec.1 "contains" (by decide)
  · exact lookup_cast_spec.2 "exact" (by decide)

/-- C9: the binary-field converter decodes the base64 encoding of any byte
sequence back to exactly that sequence. -/
theorem convert_binaryfield_value_roundtrip (b : List Nat)
    (h : ∀ x ∈ b, x < 256) :
    convert_binaryfield_value (some (b64encode b)) = some (Except.ok b) := by
  simp [convert_binaryfield_value, b64decode, b64decode_encode b h]

/-- C9 witness: the bytes `[0, 255, 16, 77]` survive the round-trip. -/
theorem convert_binaryfield_value_roundtrip_witness :
    (∀ x ∈ [0, 255, 16, 77], x < 256) ∧
    convert_binaryfield_value (some (b64encode [0, 255, 16, 77])) =
      some (Except.ok [0, 255, 16, 77]) :=
  ⟨by decide, convert_binaryfield_value_roundtrip [0, 255, 16, 77] (by decide)⟩

/-- C10: the operand preparation for case-insensitive exact lookups is the
very function used for pattern lookups, and both return the
regex-metacharacter-escaped form of the operand's string rendering. -/
theorem prep_for_iexact_query_is_like_query :
    prep_for_iexact_query = prep_for_like_query ∧
    (∀ x, prep_for_iexact_query x = reEscape x ∧
      prep_for_like_query x = reEscape x) :=
  ⟨rfl, fun _ => ⟨rfl, rfl⟩⟩
